import Mathlib

/-!
Shallow embedding of the forecast aggregation and visual-encoding pipeline
of `src/streamlit_app.py` (a Streamlit weather-map app), together with
theorems settling the specification claims about it.

Temperatures and coordinates are modelled as rationals (the Python code
only adds, multiplies and compares them, so ℚ is a faithful carrier for
every input the claims mention). Machine floating point is not involved in
any claim boundary value used here.
-/

/-- One normalized forecast record, as appended in the fetch loop
(`streamlit_app.py` lines 61-68): city name, coordinates copied from the
catalog, ISO timestamp string, temperature. -/
structure ForecastRecord where
  city : String
  lat : ℚ
  lon : ℚ
  time : String
  temperature : ℚ
deriving Repr, DecidableEq

/-- `get_color` (`streamlit_app.py` lines 77-88): the ordered, first-match
if/elif chain over temperature bands, returning an RGBA list with alpha 200. -/
def get_color (temp : ℚ) : List ℤ :=
  if temp < 0 then [0, 0, 255, 200]
  else if temp < 10 then [0, 255, 255, 200]
  else if temp < 20 then [0, 255, 0, 200]
  else if temp < 25 then [255, 165, 0, 200]
  else [255, 0, 0, 200]

/-- A record of the encoded snapshot: the original columns plus the two
derived columns `elevation` and `color` added at lines 123 and 126. -/
structure EncodedRecord where
  city : String
  lat : ℚ
  lon : ℚ
  time : String
  temperature : ℚ
  elevation : ℚ
  color : List ℤ
deriving Repr, DecidableEq

/-- Encoding of one record: `elevation = (Temperature + 20) * 2000`
(line 123) and `color = get_color Temperature` (line 126); all original
columns are carried over unchanged (the dataframe is `.copy()`-ed and only
two new columns are assigned). -/
def encodeRecord (r : ForecastRecord) : EncodedRecord :=
  { city := r.city
    lat := r.lat
    lon := r.lon
    time := r.time
    temperature := r.temperature
    elevation := (r.temperature + 20) * 2000
    color := get_color r.temperature }

/-- Row-wise encoding of a whole snapshot: pandas assigns the two derived
columns row by row, which on the record sequence is a `map`. -/
def encodeSnapshot (rs : List ForecastRecord) : List EncodedRecord :=
  rs.map encodeRecord

/-- Snapshot selection (`df_filtered`, line 119): boolean-mask filter on
timestamp equality, preserving row order. -/
def select_snapshot (records : List ForecastRecord) (ts : String) : List ForecastRecord :=
  records.filter (fun r => r.time == ts)

/-! ### Forecast fetcher -/

/-- The `hourly` object of one point's response; each field is `Option`al
because the Python code reads `city_data['hourly']['time']` and
`city_data['hourly']['temperature_2m']` with plain indexing, so a missing
or malformed field raises a `KeyError`/`TypeError` (modelled as `none`). -/
structure Hourly where
  time : Option (List String)
  temperature_2m : Option (List ℚ)
deriving Repr, DecidableEq

/-- One point's object in the response body. -/
structure CityData where
  hourly : Option Hourly
deriving Repr, DecidableEq

/-- The JSON body: a single object when one point was requested, a list of
objects otherwise (`streamlit_app.py` lines 50-54). -/
inductive ApiResponse where
  | single (d : CityData)
  | list (ds : List CityData)
deriving Repr, DecidableEq

/-- Outcome of the HTTP call: either a transport-level exception from
`requests.get`, or a status code with a parsed JSON body
(`response.raise_for_status()` raises on codes 400-599). -/
inductive HttpResult where
  | transportError (msg : String)
  | status (code : Nat) (body : ApiResponse)
deriving Repr, DecidableEq

/-- Line 54: `data_list = data if isinstance(data, list) else [data]`. -/
def data_list : ApiResponse → List CityData
  | .single d => [d]
  | .list ds => ds

/-- The inner `for t, temp in zip(times, temps)` loop (lines 61-68) for one
point: positional zip of the timestamp and temperature sequences into
records carrying the catalog's name and coordinates. -/
def cityRecords (name : String) (lat lon : ℚ) (times : List String)
    (temps : List ℚ) : List ForecastRecord :=
  (times.zip temps).map (fun p =>
    { city := name, lat := lat, lon := lon, time := p.1, temperature := p.2 })

/-- The outer `for i, city_data in enumerate(data_list)` loop (lines 56-68),
pairing response objects with the catalog positionally. An exhausted
catalog (`city_names[i]`) raises `IndexError`; a missing `hourly`,
`hourly.time` or `hourly.temperature_2m` field raises a lookup error. Any
exception aborts the whole loop, so the error short-circuits. -/
def buildRecords : List (String × ℚ × ℚ) → List CityData →
    Except String (List ForecastRecord)
  | _, [] => .ok []
  | [], _ :: _ => .error "IndexError: list index out of range"
  | (name, lat, lon) :: cat, cd :: ds =>
    match cd.hourly with
    | none => .error "KeyError: hourly"
    | some h =>
      match h.time with
      | none => .error "KeyError: time"
      | some times =>
        match h.temperature_2m with
        | none => .error "KeyError: temperature_2m"
        | some temps =>
          match buildRecords cat ds with
          | .error e => .error e
          | .ok rest => .ok (cityRecords name lat lon times temps ++ rest)

/-- The message header of the `st.error` call in the `except` branch
(line 73). -/
def errHeader : String := "データ取得エラー: "

/-- `fetch_forecast_data` (lines 30-74), parameterized by the catalog and
the HTTP outcome. The result models what the caller observes: the returned
record sequence (the DataFrame) and the optional `st.error` failure signal.
In the `except` branch the function shows the error and returns an empty
DataFrame, so every exception yields `([], some message)`. -/
def fetch_forecast_data (catalog : List (String × ℚ × ℚ))
    (res : HttpResult) : List ForecastRecord × Option String :=
  match res with
  | .transportError msg => ([], some (errHeader ++ msg))
  | .status code body =>
    if 400 ≤ code ∧ code ≤ 599 then
      ([], some (errHeader ++ "HTTPError " ++ toString code))
    else
      match buildRecords catalog (data_list body) with
      | .error e => ([], some (errHeader ++ e))
      | .ok recs => (recs, none)

/-- The failure conditions of the fetch, as the code realizes them: a
transport exception from `requests.get`, an HTTP error status (raised by
`raise_for_status`), or an exception while reading the per-point fields
(the `buildRecords` loop erroring, which covers missing/malformed
`hourly`, `hourly.time` and `hourly.temperature_2m`). -/
def fetchFails (catalog : List (String × ℚ × ℚ)) : HttpResult → Prop
  | .transportError _ => True
  | .status code body =>
    (400 ≤ code ∧ code ≤ 599) ∨
      ∃ e, buildRecords catalog (data_list body) = .error e

/-! ### Temporal index builder -/

/-- `full_df['Time'].unique()` (line 97): pandas returns the unique values
in order of appearance, i.e. a single scan keeping each value the first
time it is seen. -/
def time_options (ts : List String) : List String :=
  ts.foldl (fun acc t => if t ∈ acc then acc else acc ++ [t]) []

/-- The spec-side description of the index ("the sequence of distinct
timestamp values in first-seen order"): keep each head and drop its later
duplicates. Stated from the spec's words, to be compared with
`time_options`. -/
def firstSeenOrderSpec : List String → List String
  | [] => []
  | t :: ts => t :: (firstSeenOrderSpec ts).filter (fun s => s ≠ t)

/-- A local-clock value, as read by `datetime.now()`; only the fields the
format string `%Y-%m-%dT%H:00` consumes, plus the sub-hour fields it
discards. -/
structure LocalTime where
  year : Nat
  month : Nat
  day : Nat
  hour : Nat
  minute : Nat
deriving Repr, DecidableEq

/-- Zero-padding to two digits, as `%m`, `%d`, `%H` do. -/
def pad2 (n : Nat) : String :=
  if n < 10 then "0" ++ toString n else toString n

/-- Zero-padding to four digits, as `%Y` does. -/
def pad4 (n : Nat) : String :=
  if n < 10 then "000" ++ toString n
  else if n < 100 then "00" ++ toString n
  else if n < 1000 then "0" ++ toString n
  else toString n

/-- `datetime.now().strftime('%Y-%m-%dT%H:00')` (line 100): the current
local time truncated to the hour (minutes are hard-coded to `00`,
discarding `minute` and below). -/
def current_hour_iso (now : LocalTime) : String :=
  pad4 now.year ++ "-" ++ pad2 now.month ++ "-" ++ pad2 now.day ++ "T" ++
    pad2 now.hour ++ ":00"

/-- Python's `list.index`: position of the first occurrence, or the
`ValueError` case as `none`. -/
def listIndex (x : String) : List String → Option Nat
  | [] => none
  | y :: ys => if y = x then some 0 else (listIndex x ys).map (· + 1)

/-- Lines 100-104: `default_index = list(time_options).index(current_hour_iso)`
with the `ValueError` handler setting it to 0. -/
def default_index (opts : List String) (now : LocalTime) : Nat :=
  match listIndex (current_hour_iso now) opts with
  | some i => i
  | none => 0

/-! ### Theorems -/

/-- C1: for every finite temperature `t`, `get_color` returns exactly one
RGBA color, determined by the ascending first-match band table — `t < 0`
gives (0,0,255), `0 ≤ t < 10` gives (0,255,255), `10 ≤ t < 20` gives
(0,255,0), `20 ≤ t < 25` gives (255,165,0), `t ≥ 25` gives (255,0,0) —
always with alpha exactly 200. The five hypotheses partition ℚ, so every
temperature is mapped and (being a function value) mapped only once. -/
theorem get_color_bands (t : ℚ) :
    (t < 0 → get_color t = [0, 0, 255, 200]) ∧
    (0 ≤ t → t < 10 → get_color t = [0, 255, 255, 200]) ∧
    (10 ≤ t → t < 20 → get_color t = [0, 255, 0, 200]) ∧
    (20 ≤ t → t < 25 → get_color t = [255, 165, 0, 200]) ∧
    (25 ≤ t → get_color t = [255, 0, 0, 200]) ∧
    (get_color t)[3]? = some 200 := by
  unfold get_color
  refine ⟨?_, ?_, ?_, ?_, ?_, ?_⟩ <;> intros <;> split_ifs <;>
    first | rfl | linarith

/-- Boundary and spot-check evaluation of the band table, at the
temperatures the spec lists. -/
theorem get_color_bands_witness :
    get_color (-50) = [0, 0, 255, 200] ∧
    get_color 0 = [0, 255, 255, 200] ∧
    get_color (9999/1000) = [0, 255, 255, 200] ∧
    get_color 10 = [0, 255, 0, 200] ∧
    get_color 20 = [255, 165, 0, 200] ∧
    get_color (24999/1000) = [255, 165, 0, 200] ∧
    get_color 25 = [255, 0, 0, 200] ∧
    get_color 60 = [255, 0, 0, 200] :=
  ⟨(get_color_bands _).1 (by norm_num),
   (get_color_bands _).2.1 le_rfl (by norm_num),
   (get_color_bands _).2.1 (by norm_num) (by norm_num),
   (get_color_bands _).2.2.1 le_rfl (by norm_num),
   (get_color_bands _).2.2.2.1 le_rfl (by norm_num),
   (get_color_bands _).2.2.2.1 (by norm_num) (by norm_num),
   (get_color_bands _).2.2.2.2.1 le_rfl,
   (get_color_bands _).2.2.2.2.1 (by norm_num)⟩

/-- C2: the encoded elevation is exactly `(temperature + 20) * 2000`; at
temperature −20 it is 0 and at temperature 5 it is 50000. -/
theorem encode_elevation (r : ForecastRecord) :
    (encodeRecord r).elevation = (r.temperature + 20) * 2000 ∧
    (r.temperature = -20 → (encodeRecord r).elevation = 0) ∧
    (r.temperature = 5 → (encodeRecord r).elevation = 50000) := by
  refine ⟨rfl, fun h => ?_, fun h => ?_⟩ <;> · simp only [encodeRecord, h]; norm_num

/-- Concrete evaluation of the elevation formula at −20 and 5. -/
theorem encode_elevation_witness :
    (encodeRecord ⟨"Sapporo", 43, 141, "2025-10-12T00:00", -20⟩).elevation = 0 ∧
    (encodeRecord ⟨"Tokyo", 35, 139, "2025-10-12T00:00", 5⟩).elevation = 50000 :=
  ⟨(encode_elevation _).2.1 rfl, (encode_elevation _).2.2 rfl⟩

/-- C4: the snapshot selector returns exactly the subsequence of records
whose timestamp equals the chosen value (a sublist, so order-preserving;
all of whose members match; containing every matching record, with the
matching multiplicity), and an empty list — not a failure — when nothing
matches. -/
theorem select_snapshot_spec (records : List ForecastRecord) (ts : String) :
    (select_snapshot records ts).Sublist records ∧
    (∀ r ∈ select_snapshot records ts, r.time = ts) ∧
    (∀ r ∈ records, r.time = ts → r ∈ select_snapshot records ts) ∧
    (select_snapshot records ts).length = records.countP (fun r => r.time == ts) ∧
    ((∀ r ∈ records, r.time ≠ ts) → select_snapshot records ts = []) := by
  refine ⟨List.filter_sublist _, ?_, ?_, ?_, ?_⟩
  · intro r hr; simpa using (List.mem_filter.mp hr).2
  · intro r hr h; exact List.mem_filter.mpr ⟨hr, by simpa using h⟩
  · simp [select_snapshot, List.countP_eq_length_filter]
  · intro h; rw [select_snapshot, List.filter_eq_nil_iff]
    intro r hr; simpa using h r hr

/-- Concrete run of the selector: a matching timestamp keeps the record, an
absent timestamp yields the empty snapshot. -/
theorem select_snapshot_spec_witness :
    (⟨"Tokyo", 35, 139, "2025-10-12T03:00", 5⟩ : ForecastRecord) ∈
      select_snapshot [⟨"Tokyo", 35, 139, "2025-10-12T03:00", 5⟩] "2025-10-12T03:00" ∧
    select_snapshot [(⟨"Tokyo", 35, 139, "2025-10-12T03:00", 5⟩ : ForecastRecord)]
      "2025-10-12T04:00" = [] :=
  ⟨(select_snapshot_spec _ _).2.2.1 _ (by simp) rfl,
   (select_snapshot_spec _ _).2.2.2.2 (by intro r hr; simp at hr; simp [hr])⟩

/-- C7: a single-object response and its one-element-list form are
normalized to the same per-point iteration, and the whole fetch produces
identical output on both shapes. -/
theorem shape_normalization (catalog : List (String × ℚ × ℚ)) (code : Nat)
    (d : CityData) :
    data_list (ApiResponse.single d) = data_list (ApiResponse.list [d]) ∧
    fetch_forecast_data catalog (HttpResult.status code (ApiResponse.single d)) =
      fetch_forecast_data catalog (HttpResult.status code (ApiResponse.list [d])) :=
  ⟨rfl, rfl⟩

/-- C9: encoding a snapshot only adds the two derived fields: record count
and positions are preserved (each input row maps to its encoded row at the
same index), and on each record the name, coordinates, timestamp and
temperature are carried over unchanged while `elevation` and `color` are
the derived values. -/
theorem encode_frame (rs : List ForecastRecord) :
    (encodeSnapshot rs).length = rs.length ∧
    (∀ (k : Nat) (r : ForecastRecord),
      rs[k]? = some r → (encodeSnapshot rs)[k]? = some (encodeRecord r)) ∧
    (∀ r : ForecastRecord, (encodeRecord r).city = r.city ∧
      (encodeRecord r).lat = r.lat ∧ (encodeRecord r).lon = r.lon ∧
      (encodeRecord r).time = r.time ∧
      (encodeRecord r).temperature = r.temperature ∧
      (encodeRecord r).elevation = (r.temperature + 20) * 2000 ∧
      (encodeRecord r).color = get_color r.temperature) := by
  refine ⟨by simp [encodeSnapshot], ?_, fun r => ⟨rfl, rfl, rfl, rfl, rfl, rfl, rfl⟩⟩
  intro k r h
  simp [encodeSnapshot, List.getElem?_map, h]

/-- Concrete run of the frame property: encoding a one-record snapshot
keeps the record at index 0, with only the derived fields added. -/
theorem encode_frame_witness :
    (encodeSnapshot [⟨"Naha", 26, 127, "2025-10-12T00:00", 30⟩])[0]? =
      some (encodeRecord ⟨"Naha", 26, 127, "2025-10-12T00:00", 30⟩) :=
  (encode_frame _).2.1 0 _ rfl

/-! #### Temporal index lemmas -/

lemma filter_comm (l : List String) (p q : String → Bool) :
    (l.filter p).filter q = (l.filter q).filter p := by
  rw [List.filter_filter, List.filter_filter]
  simp [Bool.and_comm]

lemma firstSeenOrderSpec_filter (p : String → Bool) :
    ∀ ts : List String,
      firstSeenOrderSpec (ts.filter p) = (firstSeenOrderSpec ts).filter p
  | [] => rfl
  | t :: ts => by
    by_cases hpt : p t
    · rw [show (t :: ts).filter p = t :: ts.filter p by simp [hpt]]
      rw [firstSeenOrderSpec, firstSeenOrderSpec,
        firstSeenOrderSpec_filter p ts]
      rw [show (t :: (firstSeenOrderSpec ts).filter (fun s => s ≠ t)).filter p
            = t :: ((firstSeenOrderSpec ts).filter (fun s => s ≠ t)).filter p by
          simp [hpt]]
      rw [filter_comm]
    · rw [show (t :: ts).filter p = ts.filter p by simp [hpt]]
      rw [firstSeenOrderSpec_filter p ts, firstSeenOrderSpec]
      rw [show (t :: (firstSeenOrderSpec ts).filter (fun s => s ≠ t)).filter p
            = ((firstSeenOrderSpec ts).filter (fun s => s ≠ t)).filter p by
          simp [hpt]]
      rw [filter_comm]
      refine (List.filter_eq_self.mpr ?_).symm
      intro s hs
      have hps : p s := by simpa using (List.mem_filter.mp hs).2
      have : s ≠ t := fun he => hpt (he ▸ hps)
      simpa using this

lemma time_options_go (ts : List String) : ∀ acc : List String,
    ts.foldl (fun acc t => if t ∈ acc then acc else acc ++ [t]) acc
      = acc ++ firstSeenOrderSpec (ts.filter (fun t => ¬ t ∈ acc)) := by
  induction ts with
  | nil => intro acc; simp [firstSeenOrderSpec]
  | cons t ts ih =>
    intro acc
    by_cases ht : t ∈ acc
    · simp only [List.foldl_cons, if_pos ht]
      rw [ih acc]
      congr 2
      simp [ht]
    · simp only [List.foldl_cons, if_neg ht]
      rw [ih (acc ++ [t])]
      rw [show (t :: ts).filter (fun s => ¬ s ∈ acc)
            = t :: ts.filter (fun s => ¬ s ∈ acc) by simp [ht]]
      rw [firstSeenOrderSpec]
      rw [show ts.filter (fun s => ¬ s ∈ acc ++ [t])
            = (ts.filter (fun s => ¬ s ∈ acc)).filter (fun s => s ≠ t) by
          rw [List.filter_filter]
          apply List.filter_congr
          intro s _
          simp [not_or, and_comm]]
      rw [firstSeenOrderSpec_filter]
      simp

lemma firstSeenOrderSpec_nodup : ∀ ts : List String, (firstSeenOrderSpec ts).Nodup
  | [] => List.nodup_nil
  | t :: ts => by
    rw [firstSeenOrderSpec, List.nodup_cons]
    refine ⟨fun hmem => ?_, List.Nodup.filter _ (firstSeenOrderSpec_nodup ts)⟩
    have := (List.mem_filter.mp hmem).2
    simp at this

lemma firstSeenOrderSpec_subset : ∀ ts : List String,
    ∀ s ∈ firstSeenOrderSpec ts, s ∈ ts
  | [] => by simp [firstSeenOrderSpec]
  | t :: ts => by
    intro s hs
    rw [firstSeenOrderSpec, List.mem_cons] at hs
    rcases hs with h | h
    · simp [h]
    · exact List.mem_cons_of_mem _ (firstSeenOrderSpec_subset ts s (List.mem_filter.mp h).1)

/-- C5: the temporal index equals the sequence of distinct timestamp values
in first-seen order of the input (the spec-side stable dedup
`firstSeenOrderSpec`, not a sort), its entries are pairwise distinct, and
every timestamp in it occurs in some input record's timestamp column. -/
theorem time_options_first_seen (ts : List String) :
    time_options ts = firstSeenOrderSpec ts ∧
    (time_options ts).Nodup ∧
    (∀ t ∈ time_options ts, t ∈ ts) := by
  have h1 : time_options ts = firstSeenOrderSpec ts := by
    rw [time_options, time_options_go ts []]
    simp
  refine ⟨h1, ?_, ?_⟩
  · rw [h1]; exact firstSeenOrderSpec_nodup ts
  · rw [h1]; exact firstSeenOrderSpec_subset ts

/-- Concrete run of the index builder on an adversarially shuffled input:
the stable dedup keeps first-seen order (not sorted order), and a surviving
timestamp is one of the input values. -/
theorem time_options_first_seen_witness :
    ("c" : String) ∈ ["b", "a", "b", "c", "a"] ∧
    time_options ["b", "a", "b", "c", "a"]
      = firstSeenOrderSpec ["b", "a", "b", "c", "a"] :=
  ⟨(time_options_first_seen _).2.2 "c" (by decide),
   (time_options_first_seen _).1⟩

/-! #### Default-index lemmas -/

lemma listIndex_none (x : String) : ∀ l : List String,
    listIndex x l = none ↔ x ∉ l
  | [] => by simp [listIndex]
  | y :: ys => by
    by_cases h : y = x
    · simp [listIndex, h]
    · simp only [listIndex, if_neg h, Option.map_eq_none', listIndex_none x ys,
        List.mem_cons, not_or]
      constructor
      · intro hx; exact ⟨fun he => h he.symm, hx⟩
      · intro hx; exact hx.2

lemma listIndex_some (x : String) : ∀ (l : List String) (i : Nat),
    listIndex x l = some i →
      l[i]? = some x ∧ ∀ j < i, l[j]? ≠ some x
  | [], i => by simp [listIndex]
  | y :: ys, i => by
    by_cases h : y = x
    · simp only [listIndex, if_pos h]
      intro hi
      obtain rfl : i = 0 := by simpa using hi.symm
      subst h
      exact ⟨by simp, fun j hj => absurd hj (Nat.not_lt_zero j)⟩
    · simp only [listIndex, if_neg h, Option.map_eq_some']
      rintro ⟨i', hi', rfl⟩
      obtain ⟨hget, hfst⟩ := listIndex_some x ys i' hi'
      refine ⟨by simpa using hget, ?_⟩
      intro j hj
      cases j with
      | zero => simpa using fun he => h he
      | succ j' =>
        have : j' < i' := Nat.lt_of_succ_lt_succ hj
        simpa using hfst j' this

/-- C6: with the current local time truncated to the hour and formatted as
`YYYY-MM-DDTHH:00`, the default index is the position of that string in the
timestamp sequence when it occurs there (the first such position), and 0
otherwise — never an error. -/
theorem default_index_spec (opts : List String) (now : LocalTime) :
    (current_hour_iso now ∈ opts →
      opts[default_index opts now]? = some (current_hour_iso now) ∧
      ∀ j < default_index opts now, opts[j]? ≠ some (current_hour_iso now)) ∧
    (current_hour_iso now ∉ opts → default_index opts now = 0) := by
  constructor
  · intro hmem
    cases hidx : listIndex (current_hour_iso now) opts with
    | none => exact absurd hmem ((listIndex_none _ _).mp hidx)
    | some i =>
      have := listIndex_some _ _ _ hidx
      simpa [default_index, hidx] using this
  · intro hmem
    simp [default_index, (listIndex_none _ _).mpr hmem]

/-- Concrete run of the default selection: a 03:45 clock truncates to
`2025-10-12T03:00`, found at position 1; with that hour absent, the default
index falls back to 0. -/
theorem default_index_spec_witness :
    (["2025-10-12T02:00", "2025-10-12T03:00"] :
        List String)[default_index ["2025-10-12T02:00", "2025-10-12T03:00"]
          ⟨2025, 10, 12, 3, 45⟩]?
      = some (current_hour_iso ⟨2025, 10, 12, 3, 45⟩) ∧
    default_index ["2025-10-11T00:00"] ⟨2025, 10, 12, 3, 45⟩ = 0 :=
  ⟨((default_index_spec _ _).1 (by decide)).1,
   (default_index_spec _ _).2 (by decide)⟩

/-! #### Fetcher lemmas -/

lemma cityRecords_length (name : String) (lat lon : ℚ) (times : List String)
    (temps : List ℚ) :
    (cityRecords name lat lon times temps).length
      = min times.length temps.length := by
  simp [cityRecords, List.length_zip]

lemma zip_getElem? (as : List String) : ∀ (bs : List ℚ) (k : Nat),
    (as.zip bs)[k]? = as[k]?.bind (fun a => bs[k]?.map (fun b => (a, b))) := by
  induction as with
  | nil => intro bs k; simp
  | cons a as ih =>
    intro bs k
    cases bs with
    | nil => simp
    | cons b bs =>
      cases k with
      | zero => simp
      | succ k' => simpa using ih bs k'

lemma buildRecords_ok : ∀ (ds : List CityData) (cat : List (String × ℚ × ℚ)),
    ds.length ≤ cat.length →
    (∀ cd ∈ ds, ∃ ti te,
      cd.hourly = some { time := some ti, temperature_2m := some te }) →
    ∃ recs, buildRecords cat ds = .ok recs
  | [], cat, _, _ => ⟨[], by cases cat <;> rfl⟩
  | _ :: _, [], hlen, _ => absurd hlen (by simp)
  | cd :: ds, (n, la, lo) :: cat, hlen, hwf => by
    obtain ⟨ti, te, hcd⟩ := hwf cd (List.mem_cons_self _ _)
    obtain ⟨rest, hrest⟩ := buildRecords_ok ds cat (by simpa using hlen)
      (fun c hc => hwf c (List.mem_cons_of_mem _ hc))
    exact ⟨cityRecords n la lo ti te ++ rest, by simp [buildRecords, hcd, hrest]⟩

lemma buildRecords_error_of_bad :
    ∀ (ds : List CityData) (cat : List (String × ℚ × ℚ)) (cd : CityData),
    cd ∈ ds →
    (cd.hourly = none ∨
      ∃ h, cd.hourly = some h ∧ (h.time = none ∨ h.temperature_2m = none)) →
    ∃ e, buildRecords cat ds = .error e
  | [], _, cd, hmem, _ => absurd hmem (List.not_mem_nil cd)
  | _ :: _, [], _, _, _ => ⟨"IndexError: list index out of range", rfl⟩
  | cd0 :: ds, (n, la, lo) :: cat, cd, hmem, hbad => by
    rcases List.mem_cons.mp hmem with rfl | hmem'
    · rcases hbad with hnone | ⟨h, hsome, hfield⟩
      · exact ⟨"KeyError: hourly", by simp [buildRecords, hnone]⟩
      · rcases hfield with ht | hte
        · exact ⟨"KeyError: time", by simp [buildRecords, hsome, ht]⟩
        · cases hti : h.time with
          | none => exact ⟨"KeyError: time", by simp [buildRecords, hsome, hti]⟩
          | some ti =>
            exact ⟨"KeyError: temperature_2m",
              by simp [buildRecords, hsome, hti, hte]⟩
    · cases hh : cd0.hourly with
      | none => exact ⟨"KeyError: hourly", by simp [buildRecords, hh]⟩
      | some h0 =>
        cases hti : h0.time with
        | none => exact ⟨"KeyError: time", by simp [buildRecords, hh, hti]⟩
        | some ti =>
          cases hte : h0.temperature_2m with
          | none =>
            exact ⟨"KeyError: temperature_2m",
              by simp [buildRecords, hh, hti, hte]⟩
          | some te =>
            obtain ⟨e, he⟩ := buildRecords_error_of_bad ds cat cd hmem' hbad
            exact ⟨e, by simp [buildRecords, hh, hti, hte, he]⟩

/-- C8: whenever the fetch emits a failure signal, the caller receives an
empty record set and one message prefixed with the human-readable cause
header (no partial per-point results); and every enumerated failure kind —
transport failure, error status, missing/malformed `hourly.time` or
`hourly.temperature_2m` on any point — does emit the failure signal. -/
theorem fetch_failure_spec (catalog : List (String × ℚ × ℚ)) (res : HttpResult) :
    ((fetch_forecast_data catalog res).2.isSome →
      ∃ cause, fetch_forecast_data catalog res = ([], some (errHeader ++ cause))) ∧
    (fetchFails catalog res → (fetch_forecast_data catalog res).2.isSome) ∧
    (∀ code body cd, res = .status code body → cd ∈ data_list body →
      (cd.hourly = none ∨
        ∃ h, cd.hourly = some h ∧ (h.time = none ∨ h.temperature_2m = none)) →
      fetchFails catalog res) := by
  cases res with
  | transportError msg =>
    refine ⟨fun _ => ⟨msg, rfl⟩, fun _ => rfl, ?_⟩
    intro code body cd heq
    exact absurd heq (by simp)
  | status code body =>
    by_cases hc : 400 ≤ code ∧ code ≤ 599
    · refine ⟨fun _ => ⟨"HTTPError " ++ toString code,
          by simp [fetch_forecast_data, hc, String.append_assoc]⟩,
        fun _ => by simp [fetch_forecast_data, hc], ?_⟩
      intro code' body' cd heq hmem hbad
      injection heq with h1 h2
      subst h1; subst h2
      exact Or.inl hc
    · cases hb : buildRecords catalog (data_list body) with
      | error e =>
        refine ⟨fun _ => ⟨e, by simp [fetch_forecast_data, hc, hb]⟩,
          fun _ => by simp [fetch_forecast_data, hc, hb], ?_⟩
        intro code' body' cd heq hmem hbad
        injection heq with h1 h2
        subst h1; subst h2
        exact Or.inr ⟨e, hb⟩
      | ok recs =>
        refine ⟨?_, ?_, ?_⟩
        · intro hsome
          simp [fetch_forecast_data, hc, hb] at hsome
        · intro hf
          rcases hf with hcc | ⟨e, he⟩
          · exact absurd hcc hc
          · rw [hb] at he; simp at he
        · intro code' body' cd heq hmem hbad
          injection heq with h1 h2
          subst h1; subst h2
          obtain ⟨e, he⟩ := buildRecords_error_of_bad (data_list body) catalog cd hmem hbad
          rw [hb] at he
          simp at he

/-- Concrete failing fetches: a transport exception yields the empty record
set plus the prefixed cause, and a point with `hourly` missing makes the
whole fetch emit the failure signal. -/
theorem fetch_failure_spec_witness :
    (∃ cause, fetch_forecast_data [("Tokyo", 35, 139)]
        (.transportError "ConnectionError")
      = ([], some (errHeader ++ cause))) ∧
    (fetch_forecast_data [("Tokyo", 35, 139)]
        (.status 200 (.single { hourly := none }))).2.isSome :=
  ⟨(fetch_failure_spec _ _).1 rfl,
   (fetch_failure_spec _ _).2.1 (Or.inr ⟨"KeyError: hourly", rfl⟩)⟩

/-- C10: for one point with timestamp and temperature sequences of lengths
m and n, the zip emits exactly min(m, n) records for that point, paired
positionally in order; and a point with both fields present contributes
exactly its zipped records in front of the rest of the fold, so the
mismatch raises no error and leaves every other point's records
untouched. -/
theorem per_point_zip (name : String) (lat lon : ℚ) (times : List String)
    (temps : List ℚ) :
    (cityRecords name lat lon times temps).length
      = min times.length temps.length ∧
    (∀ k : Nat, (cityRecords name lat lon times temps)[k]? =
      times[k]?.bind (fun t => temps[k]?.map (fun m =>
        { city := name, lat := lat, lon := lon, time := t, temperature := m }))) ∧
    (∀ (cat : List (String × ℚ × ℚ)) (ds : List CityData),
      buildRecords ((name, lat, lon) :: cat)
          ({ hourly := some { time := some times, temperature_2m := some temps } } :: ds)
        = Except.map (fun rest => cityRecords name lat lon times temps ++ rest)
            (buildRecords cat ds)) := by
  refine ⟨cityRecords_length _ _ _ _ _, ?_, ?_⟩
  · intro k
    simp only [cityRecords, List.getElem?_map, zip_getElem?]
    cases times[k]? <;> cases temps[k]? <;> simp
  · intro cat ds
    cases h : buildRecords cat ds <;> simp [buildRecords, h, Except.map]

/-- C3, as stated, is false: this concrete single-point response has
`hourly.time` of length 2 and `hourly.temperature_2m` of length 1, yet the
fetch surfaces no failure and produces a record for that point. -/
theorem zip_mismatch_counterexample :
    (fetch_forecast_data [("Tokyo", 35, 139)]
        (.status 200 (.single
          { hourly := some { time := some ["2025-10-12T00:00", "2025-10-12T01:00"],
                             temperature_2m := some [21] } }))).2 = none ∧
    (fetch_forecast_data [("Tokyo", 35, 139)]
        (.status 200 (.single
          { hourly := some { time := some ["2025-10-12T00:00", "2025-10-12T01:00"],
                             temperature_2m := some [21] } }))).1
      = [{ city := "Tokyo", lat := 35, lon := 139, time := "2025-10-12T00:00",
           temperature := 21 }] :=
  ⟨rfl, rfl⟩

/-- C3 amended: a per-point length mismatch is not surfaced as a failure.
Any response whose points all carry both `hourly` fields (no more points
than catalog entries, no HTTP error status) fetches with no failure signal
whatever the sequence lengths are, and each point contributes exactly
min(m, n) zip-truncated records. -/
theorem zip_mismatch_truncates (cat : List (String × ℚ × ℚ)) (ds : List CityData)
    (code : Nat) (hcode : ¬ (400 ≤ code ∧ code ≤ 599))
    (hlen : ds.length ≤ cat.length)
    (hwf : ∀ cd ∈ ds, ∃ ti te,
      cd.hourly = some { time := some ti, temperature_2m := some te }) :
    (fetch_forecast_data cat (.status code (.list ds))).2 = none ∧
    (∀ (name : String) (lat lon : ℚ) (times : List String) (temps : List ℚ),
      (cityRecords name lat lon times temps).length
        = min times.length temps.length) := by
  constructor
  · obtain ⟨recs, hrecs⟩ := buildRecords_ok ds cat hlen hwf
    simp [fetch_forecast_data, hcode, data_list, hrecs]
  · intro n la lo ti te
    exact cityRecords_length n la lo ti te

/-- Concrete run of the amended claim: a one-point response with sequence
lengths 2 and 1 fetches without any failure signal. -/
theorem zip_mismatch_truncates_witness :
    (fetch_forecast_data [("Tokyo", 35, 139)]
        (.status 200 (.list
          [{ hourly := some { time := some ["2025-10-12T00:00", "2025-10-12T01:00"],
                              temperature_2m := some [21] } }]))).2 = none :=
  (zip_mismatch_truncates _ _ 200 (by decide) (by decide)
    (fun cd hcd => ⟨["2025-10-12T00:00", "2025-10-12T01:00"], [21], by
      rcases List.mem_singleton.mp hcd with rfl
      rfl⟩)).1
